import Mathlib

/-!
# Verification of the Moodmate emotion pipeline

Shallow embedding of the client-side emotion-estimation pipeline
(`src/client/components/moodmate/CameraCapture.tsx`), the server-side
classification route (`src/server/routes/openai-classify.ts`) and the
suggestion provider (`src/unnamed/part_000`, the `EmotionResult` component).

Numbers are modelled as `ℚ` (the scores and confidences involved are exact
decimal literals, never subject to floating-point rounding in any claim).
JavaScript objects used as label→score maps are modelled as insertion-ordered
association lists `List (String × ℚ)`; `undefined`/falsy fields are modelled
with `Option`.
-/

namespace Moodmate

/-- An expression vector: insertion-ordered map from emotion label to score.
Mirrors the JS `Record<string, number>` objects produced by face-api. -/
abbrev Expressions := List (String × ℚ)

/-- First-occurrence lookup in an association list, `none` when absent.
Mirrors JS property access `obj[k]` returning `undefined` when missing. -/
def lookupOpt (l : Expressions) (k : String) : Option ℚ :=
  match l with
  | [] => none
  | (k', v) :: rest => if k' = k then some v else lookupOpt rest k

/-- `lookupOpt` with default 0: mirrors `obj[k] ?? 0` / absent-contributes-0. -/
def lookupScore (l : Expressions) (k : String) : ℚ :=
  (lookupOpt l k).getD 0

/-- The fold step of `getTopEmotion`: replace the running top entry when the
new entry's value is strictly greater (`if (value > top.value) top = {key, value}`). -/
def topStep (top kv : String × ℚ) : String × ℚ :=
  if kv.2 > top.2 then kv else top

/-- `getTopEmotion` from CameraCapture.tsx lines 22–29:
`undefined` map returns `("neutral", 0)`; otherwise fold over the entries in
insertion order starting from `("neutral", -1)`, keeping the entry with the
strictly greatest value seen so far. (The JS `typeof value === "number"` guard
is vacuous here since every modelled value is a number.) -/
def getTopEmotion (expressions : Option Expressions) : String × ℚ :=
  match expressions with
  | none => ("neutral", 0)
  | some l => l.foldl topStep ("neutral", -1)

/-- Result of the fast provisional detection (emotion, confidence). -/
structure QuickResult where
  emotion : String
  confidence : ℚ
  deriving DecidableEq, Repr

/-- The fast-estimator policy, CameraCapture.tsx lines 110–118: take the top
entry of the quick detection's expression map (`undefined` when no face was
detected), force `"neutral"` when its value is below 0.2, and clamp the value
to [0.01, 0.99] as the confidence. -/
def quickDetect (qExpr : Option Expressions) : QuickResult :=
  let top := getTopEmotion qExpr
  { emotion := if top.2 ≥ 0.2 then top.1 else "neutral"
    confidence := max 0.01 (min 0.99 top.2) }

/-- One step of the deep pass's accumulation,
`accum[k] = (accum[k] || 0) + v` (CameraCapture.tsx line 152): add `v` to the
first entry with key `k`, or append a fresh entry when `k` is absent. -/
def addToAccum (acc : Expressions) (k : String) (v : ℚ) : Expressions :=
  match acc with
  | [] => [(k, v)]
  | (k', v') :: rest =>
    if k' = k then (k', v' + v) :: rest else (k', v') :: addToAccum rest k v

/-- Fold one frame's detection result into the accumulator: a frame with no
usable detection (`expressions` undefined, no screenshot, or a thrown
inference error) contributes nothing; otherwise every entry of its expression
map is added (CameraCapture.tsx lines 149–154). -/
def accumFrame (acc : Expressions) (frame : Option Expressions) : Expressions :=
  match frame with
  | none => acc
  | some exprs => exprs.foldl (fun a kv => addToAccum a kv.1 kv.2) acc

/-- Accumulate all sampled frames, starting from the empty object
(`const accum = {}`, CameraCapture.tsx line 131). -/
def accumExpressions (frameResults : List (Option Expressions)) : Expressions :=
  frameResults.foldl accumFrame []

/-- `const frames = fullModelsLoaded ? 3 : 1` (CameraCapture.tsx line 130). -/
def deepFrameCount (fullModelsLoaded : Bool) : ℕ :=
  if fullModelsLoaded then 3 else 1

/-- `averaged[k] = v / Math.max(1, frames)` over the accumulated entries
(CameraCapture.tsx lines 159–162). -/
def averageExpressions (frames : ℕ) (frameResults : List (Option Expressions)) :
    Expressions :=
  (accumExpressions frameResults).map (fun kv => (kv.1, kv.2 / ((max 1 frames : ℕ) : ℚ)))

/-- A frame's score for label `k`: 0 when the frame produced no detection,
else the frame's expression map's score for `k` (absent key counts 0). -/
def frameScore (frame : Option Expressions) (k : String) : ℚ :=
  match frame with
  | none => 0
  | some e => lookupScore e k

/-- Picking the deep label from the averaged vector, CameraCapture.tsx lines
164–168: clamp the top value to [0, 1] as `finalScore`, and force `"neutral"`
when `finalScore` is below 0.35. Returns (finalEmotion, finalConfidence) as
they stand before the landmark-heuristic step. -/
def deepPick (averaged : Expressions) : String × ℚ :=
  let top := getTopEmotion (some averaged)
  let finalScore := max 0 (min 1 top.2)
  ((if finalScore ≥ 0.35 then top.1 else "neutral"), finalScore)

/-- The arbiter, CameraCapture.tsx lines 234–244: a second `onDetected` call is
emitted iff the final emotion is truthy (non-empty), differs from the quick
emotion, and `finalConfidence >= quickConfidence + 0.15 || finalConfidence >= 0.5`. -/
def decideUpdate (quickEmotion : String) (quickConfidence : ℚ)
    (finalEmotion : String) (finalConfidence : ℚ) : Bool :=
  if finalEmotion ≠ "" ∧ finalEmotion ≠ quickEmotion then
    decide (finalConfidence ≥ quickConfidence + 0.15 ∨ finalConfidence ≥ 0.5)
  else
    false

/-- The sum of the values of all entries of `entries` carrying key `k`. -/
def keySum (entries : Expressions) (k : String) : ℚ :=
  match entries with
  | [] => 0
  | (k', v) :: rest => (if k' = k then v else 0) + keySum rest k

/-- `keySum` for one frame: 0 for a frame with no detection. -/
def frameKeySum (frame : Option Expressions) (k : String) : ℚ :=
  match frame with
  | none => 0
  | some e => keySum e k

/-- The three normalized landmark scalars computed at CameraCapture.tsx lines
184–194 from the detected mouth, eye and brow points: mouth-corner depression,
normalized mouth width and brow-to-eye vertical gap, each divided by the
inter-eye distance. The pixel geometry (`Math.hypot` distances over the raw
point lists) is embedded at the level of these three scalar outputs, which is
where the heuristic conditions operate. -/
structure LandmarkMetrics where
  mouthCornerDepression : ℚ
  mouthWidthNorm : ℚ
  browToEye : ℚ
  deriving DecidableEq, Repr

/-- The landmark-heuristic refinement, CameraCapture.tsx lines 195–202: two
sequential `if` statements (the second is NOT an `else if`). First, when
`mouthCornerDepression > 0.045` or the classifier's sad score (`exprs.sad ?? 0`)
exceeds 0.18, the label becomes `"sad"` with confidence
`max(current, exprs.sad ?? 0.6)`. Then, independently, when `browToEye > 0.03`
and `mouthWidthNorm < 0.45`, the label becomes `"angry"` with confidence
`max(current, exprs.angry ?? 0.6)`, overwriting the sad assignment when both
conditions hold. -/
def applyHeuristics (m : LandmarkMetrics) (exprs : Expressions)
    (finalEmotion : String) (finalConfidence : ℚ) : String × ℚ :=
  let sadOpt := lookupOpt exprs "sad"
  let p1 : String × ℚ :=
    if m.mouthCornerDepression > 0.045 ∨ sadOpt.getD 0 > 0.18 then
      ("sad", max finalConfidence (sadOpt.getD 0.6))
    else
      (finalEmotion, finalConfidence)
  if m.browToEye > 0.03 ∧ m.mouthWidthNorm < 0.45 then
    ("angry", max p1.2 ((lookupOpt exprs "angry").getD 0.6))
  else
    p1

/-- The parsed JSON body of the client's `/api/classify` fetch: `emotion`
models `data.emotion` (`none` = absent) and `confidence` the numeric value of
`data.confidence` (`none` = absent, which the code's `?? 0` turns into 0). -/
structure FetchBody where
  emotion : Option String
  confidence : Option ℚ
  deriving DecidableEq, Repr

/-- Outcome of an `/api/classify` fetch that did not throw: the response's
`ok` flag and its parsed JSON body. -/
structure FetchOutcome where
  ok : Bool
  body : FetchBody
  deriving DecidableEq, Repr

/-- `if (finalEmotion === "neutral")`: the fetch to `/api/classify` happens
exactly once in the then-branch and never otherwise
(CameraCapture.tsx lines 210–219). -/
def classifyFetchCount (finalEmotion : String) : ℕ :=
  if finalEmotion = "neutral" then 1 else 0

/-- The remote-fallback escalation, CameraCapture.tsx lines 209–232: only when
the final emotion is `"neutral"`, fetch the classification (`none` models a
thrown fetch / 8-second abort); on an `ok` response with a truthy `emotion`
and clamped confidence `max(0, min(1, confidence ?? 0)) ≥ 0.2`, adopt the
returned label with confidence `max(current, clamped)`; in every other case
keep the current (label, confidence) pair. -/
def remoteFallbackStep (fetchResult : Option FetchOutcome)
    (finalEmotion : String) (finalConfidence : ℚ) : String × ℚ :=
  if finalEmotion = "neutral" then
    match fetchResult with
    | none => (finalEmotion, finalConfidence)
    | some r =>
      if r.ok then
        let conf := max 0 (min 1 (r.body.confidence.getD 0))
        match r.body.emotion with
        | some e =>
          if e ≠ "" ∧ conf ≥ 0.2 then (e, max finalConfidence conf)
          else (finalEmotion, finalConfidence)
        | none => (finalEmotion, finalConfidence)
      else (finalEmotion, finalConfidence)
  else (finalEmotion, finalConfidence)

/-- The seven allowed emotion labels (openai-classify.ts line 139). -/
def allowedEmotions : List String :=
  ["happy", "sad", "angry", "surprised", "fearful", "disgusted", "neutral"]

/-- The object extracted by the route's JSON-scanning chain: `emotion` models
`parsed.emotion` (`none` = absent/falsy) and `confidence` models
`Number(parsed.confidence)` (`none` = not a number). -/
structure ParsedObj where
  emotion : Option String
  confidence : Option ℚ
  deriving DecidableEq, Repr

/-- `.toLowerCase()`: character-wise lowercasing (the emotion strings involved
are ASCII, where JS `toLowerCase` and `Char.toLower` agree). -/
def toLowerAscii (s : String) : String :=
  ⟨s.data.map Char.toLower⟩

/-- `String(parsed.emotion || "neutral").toLowerCase()` coerced into the
seven-label set (openai-classify.ts lines 140–141). -/
def sanitizeEmotion (emotion : Option String) : String :=
  match emotion with
  | none => "neutral"
  | some e =>
    if e = "" then "neutral"
    else if toLowerAscii e ∈ allowedEmotions then toLowerAscii e else "neutral"

/-- `Math.max(0, Math.min(1, Number(parsed.confidence) || 0.5))`
(openai-classify.ts line 142). Note `Number(x) || 0.5` yields 0.5 both when
`Number(x)` is `NaN` (`none` here) and when it is the number 0 (0 is falsy). -/
def sanitizeConfidence (confidence : Option ℚ) : ℚ :=
  let n : ℚ :=
    match confidence with
    | none => 0.5
    | some c => if c = 0 then 0.5 else c
  max 0 (min 1 n)

/-- HTTP response of the classify route: status plus the body fields the
claims mention. -/
structure ApiResponse where
  status : ℕ
  emotion : Option String
  confidence : Option ℚ
  error : Option String
  deriving DecidableEq, Repr

/-- The sanitize-and-respond tail of the route (openai-classify.ts lines
108–144): `parsed` is the outcome of the text-extraction and JSON-scanning
chain over the upstream payload (lines 79–131, embedded as its result), with
`none` meaning nothing parsed, in which case the conservative
`{emotion: "neutral", confidence: 0.5}` default is used before sanitizing.
`res.json(...)` responds with status 200. -/
def respondParsed (parsed : Option ParsedObj) : ApiResponse :=
  let p := parsed.getD ⟨some "neutral", some 0.5⟩
  ⟨200, some (sanitizeEmotion p.emotion), some (sanitizeConfidence p.confidence), none⟩

/-- Outcome of one upstream axios call: `.error` when the call threw (network
failure, timeout, model error), `.ok parsed` when it returned, carrying the
result of the JSON-extraction chain applied to its payload. -/
abbrev UpstreamOutcome := Except Unit (Option ParsedObj)

/-- `handleOpenAIClassify` (openai-classify.ts lines 5–150) as a function of
the request fields, the configured credential and the two upstream call
outcomes. `image` and `apiKey` are `none` when absent and `some ""` when
empty (both falsy in JS): missing image → 400; missing key → 500; vision call
throws with no `expressions` in the body → 500; vision call throws,
`expressions` present, text fallback also throws → 500; otherwise the parsed
result is sanitized and sent with status 200. -/
def handleOpenAIClassify (image : Option String) (expressions : Option Expressions)
    (apiKey : Option String) (visionCall textCall : UpstreamOutcome) : ApiResponse :=
  if image = none ∨ image = some "" then
    ⟨400, none, none, some "Missing image in request body"⟩
  else if apiKey = none ∨ apiKey = some "" then
    ⟨500, none, none, some "OpenAI API key not configured"⟩
  else
    match visionCall with
    | .ok parsed => respondParsed parsed
    | .error _ =>
      match expressions with
      | some _ =>
        match textCall with
        | .ok parsed => respondParsed parsed
        | .error _ =>
          ⟨500, none, none,
            some "Failed to classify image (both vision and text fallbacks failed)"⟩
      | none =>
        ⟨500, none, none, some "Failed to classify image (vision model failed)"⟩

/-- What the `EmotionResult` component ends up displaying: a suggestion text,
or the error state (`"Failed to fetch suggestion. Please try again."`). -/
inductive Displayed where
  | suggestion (s : String)
  | errorState
  deriving DecidableEq, Repr

/-- Intro line of the sad-branch suggestion (src/unnamed/part_000 line 45). -/
def sadIntro : String :=
  "Hey — I can tell this is a tough moment. Here are a couple of light jokes to hopefully lift you up:\n\n"

/-- `jokes.map((j, i) => (i+1) + ". " + j).join("\n\n")`
(src/unnamed/part_000 line 46). -/
def numberJokes (jokes : List String) : String :=
  String.intercalate "\n\n" (jokes.enum.map (fun p => toString (p.1 + 1) ++ ". " ++ p.2))

/-- Number of `/api/quote` fetches performed by `run()` for a given emotion:
one inside the `shouldFetchQuote` branch (emotion `"angry"`, reached only when
the emotion is not `"sad"`), zero elsewhere (src/unnamed/part_000 lines 39–55). -/
def quoteFetchCount (emotion : String) : ℕ :=
  if emotion = "sad" then 0 else if emotion = "angry" then 1 else 0

/-- The suggestion-provider `run()` of `EmotionResult`
(src/unnamed/part_000 lines 34–67). `jokeResults` models the two concurrent
`/api/joke` fetches: `none` when either fetch threw (then `Promise.all`
rejects and the catch shows the error state), otherwise each component is the
response's `joke` field when the response was `ok` and carried one (`none` for
non-ok or missing). `quoteResult` models the `/api/quote` fetch: `none` when
the fetch threw or returned non-ok (`if (!res.ok) throw` → error state),
otherwise the body's `quote` field. A falsy (`""`/absent) quote falls back to
the literal `"Breathe. Reset. Refocus."`. -/
def runSuggestion (emotion : String)
    (jokeResults : Option (Option String × Option String))
    (quoteResult : Option (Option String)) : Displayed :=
  if emotion = "sad" then
    match jokeResults with
    | none => .errorState
    | some (ja, jb) =>
      let jokes := ([ja, jb].filterMap id).filter (fun j => j ≠ "")
      .suggestion (sadIntro ++
        (if jokes.isEmpty then "Here's a smile for you!" else numberJokes jokes))
  else if emotion = "angry" then
    match quoteResult with
    | none => .errorState
    | some q =>
      .suggestion
        (match q with
          | some s => if s = "" then "Breathe. Reset. Refocus." else s
          | none => "Breathe. Reset. Refocus.")
  else if emotion = "happy" then .suggestion "Keep smiling! 🌞"
  else .suggestion "I hope you’re doing well ❤️"

/-- The fold of `getTopEmotion` either keeps its initial accumulator (when no
entry strictly beats it) or returns the first entry of the list that strictly
beats the accumulator and is not strictly beaten later: the list splits as
`l1 ++ r :: l2` with every entry of `l1` strictly below `r` and every entry of
`l2` at most `r`. -/
theorem foldl_topStep_spec (l : Expressions) (init : String × ℚ) :
    (l.foldl topStep init = init ∧ ∀ p ∈ l, p.2 ≤ init.2) ∨
    (∃ l1 r l2, l = l1 ++ r :: l2 ∧ l.foldl topStep init = r ∧ init.2 < r.2 ∧
      (∀ p ∈ l1, p.2 < r.2) ∧ (∀ p ∈ l2, p.2 ≤ r.2)) := by
  induction l generalizing init with
  | nil => exact Or.inl ⟨rfl, by simp⟩
  | cons kv rest ih =>
    by_cases hkv : kv.2 > init.2
    · have hstep : topStep init kv = kv := by simp [topStep, hkv]
      rcases ih kv with ⟨heq, hle⟩ | ⟨l1, r, l2, hsplit, heq, hlt, hl1, hl2⟩
      · refine Or.inr ⟨[], kv, rest, by simp, ?_, hkv, by simp, hle⟩
        simpa [hstep] using heq
      · refine Or.inr ⟨kv :: l1, r, l2, by simp [hsplit], ?_, lt_trans hkv hlt, ?_, hl2⟩
        · simpa [hstep] using heq
        · intro p hp
          rcases List.mem_cons.mp hp with h | h
          · exact h ▸ hlt
          · exact hl1 p h
    · push_neg at hkv
      have hstep : topStep init kv = init := by
        simp only [topStep, if_neg (not_lt.mpr hkv)]
      rcases ih init with ⟨heq, hle⟩ | ⟨l1, r, l2, hsplit, heq, hlt, hl1, hl2⟩
      · refine Or.inl ⟨by simpa [hstep] using heq, ?_⟩
        intro p hp
        rcases List.mem_cons.mp hp with h | h
        · exact h ▸ hkv
        · exact hle p h
      · refine Or.inr ⟨kv :: l1, r, l2, by simp [hsplit], ?_, hlt, ?_, hl2⟩
        · simpa [hstep] using heq
        · intro p hp
          rcases List.mem_cons.mp hp with h | h
          · exact h ▸ lt_of_le_of_lt hkv hlt
          · exact hl1 p h

theorem lookupScore_nil (k : String) : lookupScore [] k = 0 := rfl

theorem lookupScore_cons (k' : String) (v : ℚ) (rest : Expressions) (k : String) :
    lookupScore ((k', v) :: rest) k =
      if k' = k then v else lookupScore rest k := by
  by_cases h : k' = k <;> simp [lookupScore, lookupOpt, h]

theorem lookupScore_addToAccum (acc : Expressions) (k : String) (v : ℚ)
    (k' : String) :
    lookupScore (addToAccum acc k v) k' =
      lookupScore acc k' + (if k = k' then v else 0) := by
  induction acc with
  | nil =>
    rw [addToAccum, lookupScore_cons, lookupScore_nil]
    by_cases h : k = k' <;> simp [h]
  | cons hd rest ih =>
    obtain ⟨k'', v''⟩ := hd
    rw [addToAccum]
    by_cases h1 : k'' = k
    · subst h1
      rw [if_pos rfl, lookupScore_cons, lookupScore_cons]
      by_cases h2 : k'' = k' <;> simp [h2]
    · rw [if_neg h1, lookupScore_cons, lookupScore_cons]
      by_cases h2 : k'' = k'
      · have h3 : k ≠ k' := fun hkk => h1 (h2.trans hkk.symm)
        simp [h2, h3]
      · simp [h2, ih]

theorem lookupScore_foldl_addToAccum (entries : Expressions) (acc : Expressions)
    (k : String) :
    lookupScore (entries.foldl (fun a kv => addToAccum a kv.1 kv.2) acc) k =
      lookupScore acc k + keySum entries k := by
  induction entries generalizing acc with
  | nil => simp [keySum]
  | cons hd rest ih =>
    obtain ⟨k₁, v₁⟩ := hd
    rw [List.foldl_cons, ih, lookupScore_addToAccum, keySum]
    ring

theorem lookupScore_accumFrame (acc : Expressions) (fr : Option Expressions)
    (k : String) :
    lookupScore (accumFrame acc fr) k = lookupScore acc k + frameKeySum fr k := by
  cases fr with
  | none => simp [accumFrame, frameKeySum]
  | some e => exact lookupScore_foldl_addToAccum e acc k

theorem lookupScore_foldl_accumFrame (rs : List (Option Expressions))
    (acc : Expressions) (k : String) :
    lookupScore (rs.foldl accumFrame acc) k =
      lookupScore acc k + (rs.map (fun fr => frameKeySum fr k)).sum := by
  induction rs generalizing acc with
  | nil => simp
  | cons fr rest ih =>
    rw [List.foldl_cons, ih, lookupScore_accumFrame, List.map_cons, List.sum_cons]
    ring

theorem keySum_of_not_mem (e : Expressions) (k : String)
    (h : k ∉ e.map Prod.fst) : keySum e k = 0 := by
  induction e with
  | nil => rfl
  | cons hd rest ih =>
    obtain ⟨k', v⟩ := hd
    rw [List.map_cons, List.mem_cons] at h
    push_neg at h
    rw [keySum, if_neg (fun hh => h.1 hh.symm), ih h.2, add_zero]

theorem keySum_of_nodup (e : Expressions) (k : String)
    (h : (e.map Prod.fst).Nodup) : keySum e k = lookupScore e k := by
  induction e with
  | nil => rfl
  | cons hd rest ih =>
    obtain ⟨k', v⟩ := hd
    rw [List.map_cons, List.nodup_cons] at h
    rw [keySum, lookupScore_cons]
    by_cases hk : k' = k
    · subst hk
      rw [if_pos rfl, if_pos rfl, keySum_of_not_mem rest k' h.1, add_zero]
    · rw [if_neg hk, if_neg hk, ih h.2, zero_add]

theorem lookupOpt_map_div (l : Expressions) (k : String) (c : ℚ) :
    lookupOpt (l.map (fun kv => (kv.1, kv.2 / c))) k =
      (lookupOpt l k).map (· / c) := by
  induction l with
  | nil => rfl
  | cons hd rest ih =>
    obtain ⟨k', v⟩ := hd
    by_cases h : k' = k <;> simp [lookupOpt, h, ih]

theorem lookupScore_map_div (l : Expressions) (k : String) (c : ℚ) :
    lookupScore (l.map (fun kv => (kv.1, kv.2 / c))) k = lookupScore l k / c := by
  rw [lookupScore, lookupOpt_map_div]
  cases h : lookupOpt l k with
  | none => simp [lookupScore, h]
  | some v => simp [lookupScore, h]

end Moodmate

namespace Moodmate

/-- C1 -- Arbiter policy: equal labels never emit an update; a differing,
non-empty final label emits an update iff
`finalConfidence ≥ quickConfidence + 0.15` or `finalConfidence ≥ 0.5`. -/
theorem arbiter_policy (qe fe : String) (qc fc : ℚ) :
    (fe = qe → decideUpdate qe qc fe fc = false) ∧
    (fe ≠ qe → fe ≠ "" →
      (decideUpdate qe qc fe fc = true ↔ (fc ≥ qc + 0.15 ∨ fc ≥ 0.5))) := by
  constructor
  · intro h
    simp [decideUpdate, h]
  · intro hne hempty
    simp [decideUpdate, hne, hempty]

/-- Witness for C1: the spec's own example — provisional ("neutral", 0.4),
final ("happy", 0.5): labels differ and 0.5 ≥ 0.5, so an update fires. -/
theorem arbiter_policy_witness :
    decideUpdate "neutral" 0.4 "happy" 0.5 = true := by
  have h := (arbiter_policy "neutral" "happy" 0.4 0.5).2
    (by decide) (by decide)
  exact h.mpr (Or.inr (by norm_num))

/-- C10 -- no-face edge case: `getTopEmotion` on an absent map returns
`("neutral", 0)`, on an empty map `("neutral", -1)`, and the provisional result
for a frame with no detected face is `"neutral"` with confidence exactly 0.01. -/
theorem no_face_defaults :
    getTopEmotion none = ("neutral", 0) ∧
    getTopEmotion (some []) = ("neutral", -1) ∧
    quickDetect none = ⟨"neutral", 0.01⟩ := by
  refine ⟨rfl, rfl, ?_⟩
  simp [quickDetect, getTopEmotion]
  norm_num

/-- C6 -- fast-estimator postcondition: the provisional emotion is `"neutral"`
when the top score is below 0.2 and the top label otherwise, and the
provisional confidence is the top score clamped to [0.01, 0.99]. -/
theorem quick_detect_policy (qExpr : Option Expressions) :
    ((getTopEmotion qExpr).2 < 0.2 → (quickDetect qExpr).emotion = "neutral") ∧
    ((getTopEmotion qExpr).2 ≥ 0.2 →
      (quickDetect qExpr).emotion = (getTopEmotion qExpr).1) ∧
    (quickDetect qExpr).confidence = max 0.01 (min 0.99 (getTopEmotion qExpr).2) := by
  refine ⟨?_, ?_, rfl⟩
  · intro h
    simp [quickDetect, not_le.mpr h]
  · intro h
    simp [quickDetect, h]

/-- C7 -- deep-estimator averaging and threshold: the deep pass plans 3 frames
when the full tier is loaded and 1 otherwise; for frames whose expression maps
have no duplicate keys (JS objects), each label's averaged score is the sum of
its per-frame scores divided by the frame count; and the label picked from the
averaged vector is forced to `"neutral"` when the averaged top score is below
0.35 (and is the averaged top label when that score is in [0.35, 1]). -/
theorem deep_averaging :
    (deepFrameCount true = 3 ∧ deepFrameCount false = 1) ∧
    (∀ (frames : ℕ) (rs : List (Option Expressions)) (k : String),
      (∀ e : Expressions, some e ∈ rs → (e.map Prod.fst).Nodup) →
      lookupScore (averageExpressions frames rs) k =
        (rs.map (fun fr => frameScore fr k)).sum / ((max 1 frames : ℕ) : ℚ)) ∧
    (∀ averaged : Expressions,
      ((getTopEmotion (some averaged)).2 < 0.35 → (deepPick averaged).1 = "neutral") ∧
      (0.35 ≤ (getTopEmotion (some averaged)).2 → (getTopEmotion (some averaged)).2 ≤ 1 →
        (deepPick averaged).1 = (getTopEmotion (some averaged)).1)) := by
  refine ⟨⟨rfl, rfl⟩, ?_, ?_⟩
  · intro frames rs k hnodup
    rw [averageExpressions, lookupScore_map_div, accumExpressions,
      lookupScore_foldl_accumFrame, lookupScore_nil, zero_add]
    congr 1
    congr 1
    apply List.map_congr_left
    intro fr hfr
    cases fr with
    | none => rfl
    | some e => exact keySum_of_nodup e k (hnodup e hfr)
  · intro averaged
    constructor
    · intro h
      have hlt : max 0 (min 1 (getTopEmotion (some averaged)).2) < 0.35 := by
        rcases le_or_lt (getTopEmotion (some averaged)).2 0 with h0 | h0
        · calc max 0 (min 1 (getTopEmotion (some averaged)).2)
              = 0 := by
                rw [max_eq_left]
                exact le_trans (min_le_right _ _) h0
            _ < 0.35 := by norm_num
        · calc max 0 (min 1 (getTopEmotion (some averaged)).2)
              ≤ max 0 (getTopEmotion (some averaged)).2 :=
                max_le_max le_rfl (min_le_right _ _)
            _ = (getTopEmotion (some averaged)).2 := max_eq_right h0.le
            _ < 0.35 := h
      simp only [deepPick, if_neg (not_le.mpr hlt)]
    · intro h1 hle1
      have heq : max 0 (min 1 (getTopEmotion (some averaged)).2) =
          (getTopEmotion (some averaged)).2 := by
        rw [min_eq_right hle1, max_eq_right (le_trans (by norm_num) h1)]
      simp only [deepPick, heq, if_pos h1]

/-- Witness for C7: the spec's example — three frames with "sad" scores
0.1, 0.2, 0.3 average to 0.2, and an averaged vector whose top is
("sad", 0.2) (below 0.35) is picked as `"neutral"`. -/
theorem deep_averaging_witness :
    lookupScore (averageExpressions 3
        [some [("sad", 0.1)], some [("sad", 0.2)], some [("sad", 0.3)]]) "sad" = 0.2 ∧
    (deepPick [("sad", 0.2)]).1 = "neutral" := by
  constructor
  · have h := deep_averaging.2.1 3
      [some [("sad", 0.1)], some [("sad", 0.2)], some [("sad", 0.3)]] "sad"
      (by
        intro e he
        simp only [List.mem_cons, List.not_mem_nil, or_false,
          Option.some.injEq] at he
        rcases he with h | h | h <;> subst h <;> decide)
    rw [h]
    norm_num [frameScore, lookupScore, lookupOpt]
  · apply (deep_averaging.2.2 [("sad", 0.2)]).1
    show (getTopEmotion (some [("sad", (0.2 : ℚ))])).2 < 0.35
    norm_num [getTopEmotion, topStep]

/-- C5 -- top-label picker: whenever the expression map has an entry with a
positive value, `getTopEmotion` returns an actual entry of the map with a
positive value; every entry strictly before the returned one has a strictly
smaller value (ties resolve to the first-seen key in insertion order) and every
entry after it has a value at most the returned one (the returned entry attains
the strictly greatest value among the positive entries). -/
theorem top_picker_max (l : Expressions) (hpos : ∃ p ∈ l, 0 < p.2) :
    ∃ l1 l2, l = l1 ++ getTopEmotion (some l) :: l2 ∧
      0 < (getTopEmotion (some l)).2 ∧
      (∀ p ∈ l1, p.2 < (getTopEmotion (some l)).2) ∧
      (∀ p ∈ l2, p.2 ≤ (getTopEmotion (some l)).2) := by
  rcases foldl_topStep_spec l ("neutral", -1) with ⟨_, hle⟩ | ⟨l1, r, l2, hsplit, heq, _, hl1, hl2⟩
  · rcases hpos with ⟨p, hp, hppos⟩
    exact absurd (hle p hp) (not_le.mpr (lt_trans (by norm_num) hppos))
  · have hr : getTopEmotion (some l) = r := heq
    refine ⟨l1, l2, by rw [hr]; exact hsplit, ?_, by rw [hr]; exact hl1, by rw [hr]; exact hl2⟩
    rcases hpos with ⟨p, hp, hppos⟩
    rw [hsplit] at hp
    rcases List.mem_append.mp hp with h | h
    · exact lt_trans hppos (hr ▸ hl1 p h)
    · rcases List.mem_cons.mp h with h | h
      · exact hr ▸ h ▸ hppos
      · exact lt_of_lt_of_le hppos (hr ▸ hl2 p h)

/-- Witness for C5: on the tied map [("happy", 0.5), ("sad", 0.5)] the picker
returns the first-seen maximal entry ("happy", 0.5), and the split produced by
the theorem is the concrete one. -/
theorem top_picker_max_witness :
    getTopEmotion (some [("happy", 0.5), ("sad", 0.5)]) = ("happy", 0.5) ∧
    (∃ l1 l2, [("happy", (0.5 : ℚ)), ("sad", 0.5)] =
        l1 ++ getTopEmotion (some [("happy", 0.5), ("sad", 0.5)]) :: l2 ∧
      0 < (getTopEmotion (some [("happy", 0.5), ("sad", 0.5)])).2 ∧
      (∀ p ∈ l1, p.2 < (getTopEmotion (some [("happy", 0.5), ("sad", 0.5)])).2) ∧
      (∀ p ∈ l2, p.2 ≤ (getTopEmotion (some [("happy", 0.5), ("sad", 0.5)])).2)) := by
  constructor
  · show getTopEmotion (some [("happy", (0.5 : ℚ)), ("sad", 0.5)]) = ("happy", 0.5)
    norm_num [getTopEmotion, topStep]
  · exact top_picker_max [("happy", 0.5), ("sad", 0.5)]
      ⟨("happy", 0.5), by simp, by norm_num⟩

/-- Witness for C6: the spec's examples — a top score 0.19 map is forced
`"neutral"`; a map whose top is ("happy", 0.21) yields emotion `"happy"` with
confidence 0.21. -/
theorem quick_detect_policy_witness :
    (quickDetect (some [("happy", 0.19)])).emotion = "neutral" ∧
    quickDetect (some [("happy", 0.21)]) = ⟨"happy", 0.21⟩ := by
  constructor
  · have h := (quick_detect_policy (some [("happy", 0.19)])).1
    apply h
    show (getTopEmotion (some [("happy", (0.19 : ℚ))])).2 < 0.2
    norm_num [getTopEmotion, topStep]
  · have h := (quick_detect_policy (some [("happy", 0.21)])).2.1
    have htop : getTopEmotion (some [("happy", (0.21 : ℚ))]) = ("happy", 0.21) := by
      norm_num [getTopEmotion, topStep]
    have he := h (by rw [htop]; norm_num)
    have hc := (quick_detect_policy (some [("happy", 0.21)])).2.2
    rw [htop] at he hc
    have hc2 : (quickDetect (some [("happy", 0.21)])).confidence = 0.21 := by
      rw [hc]; norm_num
    calc quickDetect (some [("happy", 0.21)])
        = ⟨(quickDetect (some [("happy", 0.21)])).emotion,
           (quickDetect (some [("happy", 0.21)])).confidence⟩ := rfl
      _ = ⟨"happy", 0.21⟩ := by rw [he, hc2]

/-- C2 (counterexample) -- the angry override is not an `else if`: with
mouth-corner depression 0.05 (the sad condition holds), brow-to-eye gap 0.04
and mouth width 0.4 (the angry condition also holds), the label after the
heuristics is `"angry"`, not `"sad"` as the claim requires. -/
theorem heuristics_precedence_cex :
    ((0.05 : ℚ) > 0.045) ∧ ((0.04 : ℚ) > 0.03 ∧ (0.4 : ℚ) < 0.45) ∧
    (applyHeuristics ⟨0.05, 0.4, 0.04⟩ [] "neutral" 0.2).1 = "angry" ∧
    (applyHeuristics ⟨0.05, 0.4, 0.04⟩ [] "neutral" 0.2).1 ≠ "sad" := by
  have h : applyHeuristics ⟨0.05, 0.4, 0.04⟩ [] "neutral" 0.2 = ("angry", 0.6) := by
    norm_num [applyHeuristics, lookupOpt]
  refine ⟨by norm_num, ⟨by norm_num, by norm_num⟩, by rw [h], by rw [h]; simp⟩

/-- C2 (amended) -- heuristic override policy as implemented: the sad branch
applies first, then the angry branch runs as an independent second `if`. When
the angry condition (brow-to-eye gap > 0.03 and mouth width < 0.45) holds the
final label is `"angry"` — even when the sad condition (mouth-corner
depression > 0.045 or sad score > 0.18) also holds, in which case the
confidence stacks both maxima; the label is `"sad"` exactly when the sad
condition holds and the angry condition does not. -/
theorem heuristics_policy (m : LandmarkMetrics) (exprs : Expressions)
    (e : String) (c : ℚ) :
    ((m.browToEye > 0.03 ∧ m.mouthWidthNorm < 0.45) →
      (applyHeuristics m exprs e c).1 = "angry") ∧
    ((m.mouthCornerDepression > 0.045 ∨ ((lookupOpt exprs "sad").getD 0) > 0.18) →
      ¬(m.browToEye > 0.03 ∧ m.mouthWidthNorm < 0.45) →
      applyHeuristics m exprs e c =
        ("sad", max c ((lookupOpt exprs "sad").getD 0.6))) ∧
    (¬(m.mouthCornerDepression > 0.045 ∨ ((lookupOpt exprs "sad").getD 0) > 0.18) →
      ¬(m.browToEye > 0.03 ∧ m.mouthWidthNorm < 0.45) →
      applyHeuristics m exprs e c = (e, c)) ∧
    ((m.mouthCornerDepression > 0.045 ∨ ((lookupOpt exprs "sad").getD 0) > 0.18) →
      (m.browToEye > 0.03 ∧ m.mouthWidthNorm < 0.45) →
      applyHeuristics m exprs e c =
        ("angry", max (max c ((lookupOpt exprs "sad").getD 0.6))
          ((lookupOpt exprs "angry").getD 0.6))) ∧
    (¬(m.mouthCornerDepression > 0.045 ∨ ((lookupOpt exprs "sad").getD 0) > 0.18) →
      (m.browToEye > 0.03 ∧ m.mouthWidthNorm < 0.45) →
      applyHeuristics m exprs e c =
        ("angry", max c ((lookupOpt exprs "angry").getD 0.6))) := by
  refine ⟨?_, ?_, ?_, ?_, ?_⟩
  · intro ha
    simp only [applyHeuristics]
    rw [if_pos ha]
  · intro hs ha
    simp only [applyHeuristics]
    rw [if_neg ha, if_pos hs]
  · intro hs ha
    simp only [applyHeuristics]
    rw [if_neg ha, if_neg hs]
  · intro hs ha
    simp only [applyHeuristics]
    rw [if_pos ha, if_pos hs]
  · intro hs ha
    simp only [applyHeuristics]
    rw [if_pos ha, if_neg hs]

/-- Witness for the amended C2: with mouth-corner depression 0.05, mouth width
0.5 and brow-to-eye gap 0 (sad condition holds, angry condition does not) over
the scores {sad: 0.3, angry: 0.1}, the result is ("sad", 0.3). -/
theorem heuristics_policy_witness :
    applyHeuristics ⟨0.05, 0.5, 0⟩ [("sad", 0.3), ("angry", 0.1)] "neutral" 0.2 =
      ("sad", 0.3) := by
  have h :=
    (heuristics_policy ⟨0.05, 0.5, 0⟩ [("sad", 0.3), ("angry", 0.1)] "neutral" 0.2).2.1
      (Or.inl (by norm_num))
      (fun hc => absurd hc.1 (by norm_num))
  rw [h]
  norm_num [lookupOpt]

/-- C8 -- remote fallback escalation: the `/api/classify` fetch happens iff
the post-heuristics label is `"neutral"` (and otherwise the result is
unchanged); on an `ok` response carrying a non-empty label whose clamped
confidence is at least 0.2, that label is adopted with confidence
`max(current, returned)` (the clamp being the identity on returned confidences
in [0, 1]); in every other case — thrown fetch, non-ok response, falsy label
or clamped confidence below 0.2 — the result is unchanged. -/
theorem remote_fallback_policy (fetchResult : Option FetchOutcome)
    (fe : String) (fc : ℚ) :
    (classifyFetchCount fe = 1 ↔ fe = "neutral") ∧
    (fe ≠ "neutral" → remoteFallbackStep fetchResult fe fc = (fe, fc)) ∧
    (fe = "neutral" → ∀ r : FetchOutcome, fetchResult = some r → r.ok = true →
      ∀ e : String, r.body.emotion = some e → e ≠ "" →
      0.2 ≤ max 0 (min 1 (r.body.confidence.getD 0)) →
      remoteFallbackStep fetchResult fe fc =
        (e, max fc (max 0 (min 1 (r.body.confidence.getD 0))))) ∧
    (fe = "neutral" → fetchResult = none →
      remoteFallbackStep fetchResult fe fc = (fe, fc)) ∧
    (fe = "neutral" → ∀ r : FetchOutcome, fetchResult = some r →
      (r.ok = false ∨ r.body.emotion = none ∨ r.body.emotion = some "" ∨
        max 0 (min 1 (r.body.confidence.getD 0)) < 0.2) →
      remoteFallbackStep fetchResult fe fc = (fe, fc)) ∧
    (∀ c : ℚ, 0 ≤ c → c ≤ 1 → max 0 (min 1 c) = c) := by
  refine ⟨?_, ?_, ?_, ?_, ?_, ?_⟩
  · by_cases h : fe = "neutral" <;> simp [classifyFetchCount, h]
  · intro h
    simp [remoteFallbackStep, h]
  · intro hfe r hr hok e hem hne hconf
    subst hfe
    subst hr
    simp only [remoteFallbackStep, if_pos rfl, hok, if_pos, hem]
    rw [if_pos ⟨hne, hconf⟩]
  · intro hfe hn
    subst hn
    simp [remoteFallbackStep]
  · intro hfe r hr hcase
    subst hfe
    subst hr
    rcases hcase with h | h | h | h
    · simp [remoteFallbackStep, h]
    · simp only [remoteFallbackStep, if_pos rfl, h]
      cases hok : r.ok <;> simp
    · simp only [remoteFallbackStep, if_pos rfl, h]
      cases hok : r.ok <;> simp
    · simp only [remoteFallbackStep, if_pos rfl]
      cases hok : r.ok
      · simp
      · simp only [if_pos rfl]
        cases hem : r.body.emotion with
        | none => simp
        | some e => simp [ge_iff_le, not_le.mpr h]
  · intro c h0 h1
    rw [min_eq_right h1, max_eq_right h0]

/-- Witness for C8: with a neutral current result at confidence 0.3 and an ok
response {emotion: "happy", confidence: 0.7}, the fallback adopts
("happy", 0.7). -/
theorem remote_fallback_policy_witness :
    remoteFallbackStep (some ⟨true, ⟨some "happy", some 0.7⟩⟩) "neutral" 0.3 =
      ("happy", 0.7) := by
  have h :=
    (remote_fallback_policy (some ⟨true, ⟨some "happy", some 0.7⟩⟩) "neutral" 0.3).2.2.1
      rfl ⟨true, ⟨some "happy", some 0.7⟩⟩ rfl rfl "happy" rfl (by simp) (by norm_num)
  rw [h]
  norm_num

theorem sanitizeEmotion_mem (eo : Option String) :
    sanitizeEmotion eo ∈ allowedEmotions := by
  cases eo with
  | none => simp [sanitizeEmotion, allowedEmotions]
  | some e =>
    simp only [sanitizeEmotion]
    by_cases h0 : e = ""
    · rw [if_pos h0]
      simp [allowedEmotions]
    · rw [if_neg h0]
      by_cases h1 : toLowerAscii e ∈ allowedEmotions
      · rw [if_pos h1]
        exact h1
      · rw [if_neg h1]
        simp [allowedEmotions]

theorem sanitizeConfidence_bounds (co : Option ℚ) :
    0 ≤ sanitizeConfidence co ∧ sanitizeConfidence co ≤ 1 := by
  refine ⟨le_max_left 0 _, ?_⟩
  exact max_le (by norm_num) (min_le_left 1 _)

/-- C3 (counterexample) -- a request with a non-empty image field and a
configured server credential is answered with HTTP 500, not 200, when the
upstream vision call fails and the body carries no expression vector: upstream
failure does not always yield a 200 fallback, and 500 is not reserved to the
missing-credential case. -/
theorem classify_status_cex :
    (handleOpenAIClassify (some "data:image/jpeg;base64,AAAA") none (some "sk-key")
        (Except.error ()) (Except.error ())).status = 500 ∧
    (some "data:image/jpeg;base64,AAAA" : Option String) ≠ none ∧
    (some "data:image/jpeg;base64,AAAA" : Option String) ≠ some "" ∧
    (some "sk-key" : Option String) ≠ none ∧
    (some "sk-key" : Option String) ≠ some "" := by
  refine ⟨?_, by simp, by simp, by simp, by simp⟩
  simp [handleOpenAIClassify]

/-- C3 (amended) -- status policy of POST /api/classify as implemented:
missing/empty image → 400; image present but missing/empty credential → 500;
a vision-call success is always answered 200 with the sanitized body, whatever
the payload parsed to; a vision-call failure is answered 200 (sanitized text
fallback) only when the body carried `expressions` and the text call
succeeded, and is answered 500 both when `expressions` was absent and when the
text fallback also failed. -/
theorem classify_statuses (image : Option String) (expressions : Option Expressions)
    (apiKey : Option String) (vision text : UpstreamOutcome) :
    ((image = none ∨ image = some "") →
      handleOpenAIClassify image expressions apiKey vision text =
        ⟨400, none, none, some "Missing image in request body"⟩) ∧
    (¬(image = none ∨ image = some "") → (apiKey = none ∨ apiKey = some "") →
      handleOpenAIClassify image expressions apiKey vision text =
        ⟨500, none, none, some "OpenAI API key not configured"⟩) ∧
    (¬(image = none ∨ image = some "") → ¬(apiKey = none ∨ apiKey = some "") →
      ∀ parsed : Option ParsedObj, vision = Except.ok parsed →
        handleOpenAIClassify image expressions apiKey vision text =
          respondParsed parsed) ∧
    (¬(image = none ∨ image = some "") → ¬(apiKey = none ∨ apiKey = some "") →
      vision = Except.error () → expressions = none →
        (handleOpenAIClassify image expressions apiKey vision text).status = 500) ∧
    (¬(image = none ∨ image = some "") → ¬(apiKey = none ∨ apiKey = some "") →
      vision = Except.error () → ∀ ex : Expressions, expressions = some ex →
        ∀ parsed : Option ParsedObj, text = Except.ok parsed →
        handleOpenAIClassify image expressions apiKey vision text =
          respondParsed parsed) ∧
    (¬(image = none ∨ image = some "") → ¬(apiKey = none ∨ apiKey = some "") →
      vision = Except.error () → ∀ ex : Expressions, expressions = some ex →
        text = Except.error () →
        (handleOpenAIClassify image expressions apiKey vision text).status = 500) ∧
    (∀ parsed : Option ParsedObj, (respondParsed parsed).status = 200) := by
  refine ⟨?_, ?_, ?_, ?_, ?_, ?_, fun parsed => rfl⟩
  · intro h
    simp [handleOpenAIClassify, h]
  · intro h1 h2
    simp [handleOpenAIClassify, h1, h2]
  · intro h1 h2 parsed hv
    subst hv
    simp [handleOpenAIClassify, h1, h2]
  · intro h1 h2 hv he
    subst hv
    subst he
    simp [handleOpenAIClassify, h1, h2]
  · intro h1 h2 hv ex he parsed ht
    subst hv
    subst he
    subst ht
    simp [handleOpenAIClassify, h1, h2]
  · intro h1 h2 hv ex he ht
    subst hv
    subst he
    subst ht
    simp [handleOpenAIClassify, h1, h2]

/-- Witness for the amended C3: valid image and key with a successful vision
call that parsed nothing yield the sanitized conservative default with status
200; and the counexample-free 400 case fires on a missing image. -/
theorem classify_statuses_witness :
    handleOpenAIClassify (some "data:image/jpeg;base64,AAAA") none (some "sk-key")
      (Except.ok none) (Except.error ()) = respondParsed none ∧
    handleOpenAIClassify none none (some "sk-key") (Except.ok none) (Except.error ()) =
      ⟨400, none, none, some "Missing image in request body"⟩ := by
  constructor
  · exact (classify_statuses (some "data:image/jpeg;base64,AAAA") none (some "sk-key")
      (Except.ok none) (Except.error ())).2.2.1 (by simp) (by simp) none rfl
  · exact (classify_statuses none none (some "sk-key")
      (Except.ok none) (Except.error ())).1 (Or.inl rfl)

/-- C4 (counterexample) -- the sanitizer does not clamp every numeric
confidence: a parsed numeric confidence 0 is replaced by the 0.5 default
(`Number(x) || 0.5` treats the number 0 as falsy), where the claim requires
`clamp(0, 0, 1) = 0`. -/
theorem classify_sanitize_cex :
    (respondParsed (some ⟨some "happy", some 0⟩)).confidence = some 0.5 ∧
    max 0 (min 1 (0 : ℚ)) = 0 ∧ (0.5 : ℚ) ≠ 0 := by
  refine ⟨?_, by norm_num, by norm_num⟩
  simp [respondParsed, sanitizeConfidence]
  norm_num

/-- C4 (amended) -- sanitization of POST /api/classify as implemented: the
response emotion is the lower-cased input emotion when non-empty and inside
the seven-label set, `"neutral"` otherwise, and is always in the seven-label
set; the response confidence is `clamp(c, 0, 1)` for every NONZERO numeric
input confidence `c`, with the 0.5 default used both when the input is
non-numeric and when it is the number 0; every 200 response of the route has
its emotion in the seven-label set and its confidence in [0, 1]. -/
theorem classify_sanitization :
    (∀ eo : Option String, sanitizeEmotion eo ∈ allowedEmotions) ∧
    (∀ e : String, e ≠ "" → toLowerAscii e ∈ allowedEmotions →
      sanitizeEmotion (some e) = toLowerAscii e) ∧
    (∀ e : String, toLowerAscii e ∉ allowedEmotions →
      sanitizeEmotion (some e) = "neutral") ∧
    sanitizeEmotion none = "neutral" ∧
    (∀ c : ℚ, c ≠ 0 → sanitizeConfidence (some c) = max 0 (min 1 c)) ∧
    sanitizeConfidence none = 0.5 ∧ sanitizeConfidence (some 0) = 0.5 ∧
    (∀ co : Option ℚ, 0 ≤ sanitizeConfidence co ∧ sanitizeConfidence co ≤ 1) ∧
    (∀ (image : Option String) (expressions : Option Expressions)
        (apiKey : Option String) (vision text : UpstreamOutcome),
      (handleOpenAIClassify image expressions apiKey vision text).status = 200 →
      ∃ (e : String) (c : ℚ),
        (handleOpenAIClassify image expressions apiKey vision text).emotion = some e ∧
        e ∈ allowedEmotions ∧
        (handleOpenAIClassify image expressions apiKey vision text).confidence = some c ∧
        0 ≤ c ∧ c ≤ 1) := by
  have hresp : ∀ parsed : Option ParsedObj,
      ∃ (e : String) (c : ℚ), (respondParsed parsed).emotion = some e ∧
        e ∈ allowedEmotions ∧ (respondParsed parsed).confidence = some c ∧
        0 ≤ c ∧ c ≤ 1 := by
    intro parsed
    exact ⟨sanitizeEmotion (parsed.getD ⟨some "neutral", some 0.5⟩).emotion,
      sanitizeConfidence (parsed.getD ⟨some "neutral", some 0.5⟩).confidence,
      rfl, sanitizeEmotion_mem _, rfl,
      (sanitizeConfidence_bounds _).1, (sanitizeConfidence_bounds _).2⟩
  refine ⟨sanitizeEmotion_mem, ?_, ?_, rfl, ?_, by norm_num [sanitizeConfidence],
    by norm_num [sanitizeConfidence], sanitizeConfidence_bounds, ?_⟩
  · intro e h0 h1
    simp [sanitizeEmotion, h0, h1]
  · intro e h1
    by_cases h0 : e = "" <;> simp [sanitizeEmotion, h0, h1]
  · intro c h0
    simp [sanitizeConfidence, h0]
  · intro image expressions apiKey vision text hstatus
    by_cases h1 : image = none ∨ image = some ""
    · rw [(classify_statuses image expressions apiKey vision text).1 h1] at hstatus ⊢
      exact absurd hstatus (by norm_num)
    · by_cases h2 : apiKey = none ∨ apiKey = some ""
      · rw [(classify_statuses image expressions apiKey vision text).2.1 h1 h2]
          at hstatus ⊢
        exact absurd hstatus (by norm_num)
      · cases vision with
        | ok parsed =>
          rw [(classify_statuses image expressions apiKey
            (Except.ok parsed) text).2.2.1 h1 h2 parsed rfl]
          exact hresp parsed
        | error u =>
          cases u
          cases expressions with
          | none =>
            rw [show handleOpenAIClassify image none apiKey (Except.error ()) text =
              ⟨500, none, none, some "Failed to classify image (vision model failed)"⟩
              from by simp [handleOpenAIClassify, h1, h2]] at hstatus
            exact absurd hstatus (by norm_num)
          | some ex =>
            cases text with
            | ok parsed =>
              rw [(classify_statuses image (some ex) apiKey (Except.error ())
                (Except.ok parsed)).2.2.2.2.1 h1 h2 rfl ex rfl parsed rfl]
              exact hresp parsed
            | error u2 =>
              cases u2
              rw [show handleOpenAIClassify image (some ex) apiKey (Except.error ())
                  (Except.error ()) =
                ⟨500, none, none,
                  some "Failed to classify image (both vision and text fallbacks failed)"⟩
                from by simp [handleOpenAIClassify, h1, h2]] at hstatus
              exact absurd hstatus (by norm_num)

/-- Witness for the amended C4: emotion "HAPPY" is lower-cased to "happy";
the numeric confidence 2 is clamped to 1; the numeric confidence 0 hits the
0.5 default. -/
theorem classify_sanitization_witness :
    sanitizeEmotion (some "HAPPY") = "happy" ∧
    sanitizeConfidence (some 2) = 1 ∧
    sanitizeConfidence (some 0) = 0.5 := by
  refine ⟨?_, ?_, classify_sanitization.2.2.2.2.2.2.1⟩
  · have h := classify_sanitization.2.1 "HAPPY" (by simp) (by decide)
    rw [h]
    decide
  · have h := classify_sanitization.2.2.2.2.1 2 (by norm_num)
    rw [h]
    norm_num

/-- C9 (counterexample) -- when the single quote fetch fails (network error or
non-ok response), the component displays the error state
("Failed to fetch suggestion. Please try again."), not the fallback literal
"Breathe. Reset. Refocus." the claim requires. -/
theorem suggestion_angry_cex :
    runSuggestion "angry" none none = Displayed.errorState ∧
    runSuggestion "angry" none none ≠
      Displayed.suggestion "Breathe. Reset. Refocus." := by
  constructor
  · simp [runSuggestion]
  · simp [runSuggestion]

/-- C9 (amended) -- suggestion policy for "angry" as implemented: exactly one
quote is fetched (and none for any other emotion); when the fetch returns ok,
the displayed suggestion is the returned quote, with the fallback literal
"Breathe. Reset. Refocus." used only when the ok response lacks a (truthy)
quote field; when the fetch throws or returns non-ok, the error state is
displayed instead of the fallback. -/
theorem suggestion_angry_policy (jr : Option (Option String × Option String)) :
    quoteFetchCount "angry" = 1 ∧
    (∀ em : String, em ≠ "angry" → quoteFetchCount em = 0) ∧
    (∀ s : String, s ≠ "" →
      runSuggestion "angry" jr (some (some s)) = Displayed.suggestion s) ∧
    runSuggestion "angry" jr (some none) =
      Displayed.suggestion "Breathe. Reset. Refocus." ∧
    runSuggestion "angry" jr (some (some "")) =
      Displayed.suggestion "Breathe. Reset. Refocus." ∧
    runSuggestion "angry" jr none = Displayed.errorState := by
  refine ⟨rfl, ?_, ?_, ?_, ?_, ?_⟩
  · intro em hem
    by_cases hs : em = "sad" <;> simp [quoteFetchCount, hs, hem]
  · intro s hs
    simp [runSuggestion, hs]
  · simp [runSuggestion]
  · simp [runSuggestion]
  · simp [runSuggestion]

/-- Witness for the amended C9: an ok quote response is displayed verbatim. -/
theorem suggestion_angry_policy_witness :
    runSuggestion "angry" none (some (some "Stay calm. — Seneca")) =
      Displayed.suggestion "Stay calm. — Seneca" := by
  exact (suggestion_angry_policy none).2.2.1 "Stay calm. — Seneca" (by simp)

end Moodmate
